import Mathlib

/-!
Verification of the parse-orchestration and source-location core of the
DiCarloLab-Delft/libqasm cQASM front end (`src/cqasm/include/cqasm-parse-helper.hpp`).

The repository ships only the header for this subsystem; the bodies of
`SourceLocation`'s constructor, `expand_to_include`, the `ParseHelper`
machinery and the three entry points live in a translation unit that is not
part of the sources at hand.  Where a definition below embeds such a missing
body, its doc comment starts with `Modelled from the spec:` and it follows
the specification's description of that body.  Everything declared in the
header itself (field layout, default arguments, signatures) is embedded
directly from the header.
-/

namespace cqasm

/--
Placeholder for the external AST root node type (`ast::Root` from
`cqasm-ast.hpp`).  The AST hierarchy is outside this subsystem; the claims
treat it as an opaque value with decidable structural equality.
-/
inductive Root where
  | node : String → Root
deriving DecidableEq, Repr

/--
Embedding of `ParseResult` from the header: a root node handle
(`ast::One<ast::Root>`, which may be empty, hence `Option`) plus the
ordered list of accumulated error messages.
-/
structure ParseResult where
  root : Option Root
  errors : List String
deriving DecidableEq, Repr

/--
The success predicate of a parse, taken from the header's documentation of
`ParseResult.errors`: analysis was successful if and only if `errors.empty()`.
-/
def ParseResult.successful (r : ParseResult) : Prop :=
  r.errors = []

instance (r : ParseResult) : Decidable r.successful :=
  inferInstanceAs (Decidable (r.errors = []))

/--
A default-constructed `ParseResult`: in C++ its members are
value-initialized, so the `ast::One<ast::Root>` handle is empty and the
`std::vector` of errors is empty.
-/
def ParseResult.mkDefault : ParseResult :=
  { root := none, errors := [] }

/--
Embedding of `SourceLocation` from the header: a filename together with a
first/last line/column range.  The fields are `uint32_t` in the source; no
arithmetic beyond comparison and assignment is ever performed on them, so
they are embedded as `Nat` (0 still plays its sentinel role of "unknown").
-/
structure SourceLocation where
  filename : String
  first_line : Nat
  first_column : Nat
  last_line : Nat
  last_column : Nat
deriving DecidableEq, Repr

/--
Modelled from the spec: the body of `SourceLocation::SourceLocation` is not
among the sources (only its declaration, with defaults 0 for all four
coordinates).  Per the spec, the constructor establishes the non-decreasing
range invariant and collapses the end onto the start when only a start point
is given: a last endpoint lying before the first endpoint (by line, then by
column on a line tie) is pulled up to the first endpoint.
-/
def SourceLocation.make (filename : String)
    (first_line first_column last_line last_column : Nat) : SourceLocation :=
  let ll := if last_line < first_line then first_line else last_line
  let lc := if ll = first_line ∧ last_column < first_column then first_column
            else last_column
  { filename := filename
    first_line := first_line
    first_column := first_column
    last_line := ll
    last_column := lc }

/--
Modelled from the spec: the body of `SourceLocation::expand_to_include` is
not among the sources (only its declaration).  Per the spec, if the new
position lies beyond the current last endpoint (by line, then by column on
a tie) the last endpoint is updated to it; otherwise the call is a no-op.
The first endpoint is never touched.
-/
def SourceLocation.expand_to_include (loc : SourceLocation) (line column : Nat) :
    SourceLocation :=
  if loc.last_line < line then
    { loc with last_line := line, last_column := column }
  else if line = loc.last_line ∧ loc.last_column < column then
    { loc with last_column := column }
  else
    loc

/--
The form of `expand_to_include` called with only a line argument: the
header declares the column parameter with default value 1.
-/
def SourceLocation.expand_line (loc : SourceLocation) (line : Nat) : SourceLocation :=
  loc.expand_to_include line 1

/--
A finite sequence of `expand_to_include` calls, applied left to right.
-/
def SourceLocation.expand_all (loc : SourceLocation) : List (Nat × Nat) → SourceLocation
  | [] => loc
  | p :: ps => (loc.expand_to_include p.1 p.2).expand_all ps

/--
The order in which positions are compared: by line, then by column on a
line tie (the comparison used by `expand_to_include`).
-/
def posLe (a b : Nat × Nat) : Prop :=
  a.1 < b.1 ∨ (a.1 = b.1 ∧ a.2 ≤ b.2)

instance (a b : Nat × Nat) : Decidable (posLe a b) := by
  unfold posLe; infer_instance

/--
A position is enclosed by a location when it lies between the first and the
last endpoint in the line-then-column order.
-/
def SourceLocation.encloses (loc : SourceLocation) (p : Nat × Nat) : Prop :=
  posLe (loc.first_line, loc.first_column) p ∧
  posLe p (loc.last_line, loc.last_column)

instance (loc : SourceLocation) (p : Nat × Nat) : Decidable (loc.encloses p) := by
  unfold SourceLocation.encloses; infer_instance

/--
The non-decreasing range predicate from the spec: the last line exceeds the
first, or the lines are equal and the last column is at least the first.
-/
def SourceLocation.ordered (loc : SourceLocation) : Prop :=
  loc.first_line < loc.last_line ∨
  (loc.first_line = loc.last_line ∧ loc.first_column ≤ loc.last_column)

instance (loc : SourceLocation) : Decidable loc.ordered := by
  unfold SourceLocation.ordered; infer_instance

/--
Both endpoints of the location are known, i.e. none of the four coordinates
is the sentinel 0.
-/
def SourceLocation.known (loc : SourceLocation) : Prop :=
  loc.first_line ≠ 0 ∧ loc.first_column ≠ 0 ∧
  loc.last_line ≠ 0 ∧ loc.last_column ≠ 0

instance (loc : SourceLocation) : Decidable loc.known := by
  unfold SourceLocation.known; infer_instance

/--
Modelled from the spec: the file system seen by `parse_file(filename)` is a
map from names to contents, `none` when the file cannot be opened.  The
actual `fopen` call is in the missing translation unit.
-/
abbrev FileSystem := String → Option String

/--
Modelled from the spec: the success flag returned by the missing
`ParseHelper::construct()` (scanner initialization), as a function of the
filename and of the bound input data.
-/
abbrev ConstructOk := String → String → Bool

/--
Modelled from the spec: the external flex/bison grammar driver invoked by
the missing `ParseHelper::parse()`.  Given the filename and the input data
it yields the root it managed to build (possibly absent, possibly partial)
and the ordered list of error messages it reports through `push_error`.
-/
abbrev Grammar := String → String → Option Root × List String

/--
Embedding of `ParseHelper` from the header: the name of the file being
parsed, the input bound to the scanner, and the in-progress parse result.
The `FILE*`, buffer and reentrant-scanner handles are resources with no
bearing on the computed result; the bound input is represented by its data.
-/
structure ParseHelper where
  filename : String
  data : String
  result : ParseResult

/--
Modelled from the spec: a fresh helper starts with an empty result (no
root, no errors).
-/
def ParseHelper.init (filename data : String) : ParseHelper :=
  { filename := filename, data := data, result := ParseResult.mkDefault }

/--
Modelled from the spec: `ParseHelper::push_error` appends one diagnostic
string to the in-progress result, in detection order.
-/
def ParseHelper.push_error (h : ParseHelper) (msg : String) : ParseHelper :=
  { h with result := { h.result with errors := h.result.errors ++ [msg] } }

/--
Modelled from the spec: `ParseHelper::parse` invokes the external grammar
driver; the driver calls `push_error` zero or more times and, on successful
reduction, sets the result root.
-/
def ParseHelper.parse (gram : Grammar) (h : ParseHelper) : ParseHelper :=
  let out := gram h.filename h.data
  let pushed := out.2.foldl ParseHelper.push_error h
  { pushed with result := { pushed.result with root := out.1 } }

/--
Modelled from the spec: the common path of all three entry points once the
input is bound — run `construct()`; on failure report a single descriptive
error and do not proceed to `parse()`; on success run the grammar driver
and hand out its result.
-/
def run_parse (cons : ConstructOk) (gram : Grammar) (filename data : String) :
    ParseResult :=
  let h := ParseHelper.init filename data
  if cons filename data then
    (h.parse gram).result
  else
    (h.push_error ("failed to construct scanner for " ++ filename)).result

/--
Modelled from the spec: `parse_file(filename)` opens the named file; on
open failure it returns immediately with the single open error and no
root, without running the parser; otherwise it parses the file contents.
-/
def parse_file (fs : FileSystem) (cons : ConstructOk) (gram : Grammar)
    (filename : String) : ParseResult :=
  match fs filename with
  | none =>
      ((ParseHelper.init filename "").push_error
        ("failed to open file " ++ filename)).result
  | some data => run_parse cons gram filename data

/--
Modelled from the spec: `parse_file(FILE*, filename)` parses an
already-open stream, whose readable contents stand in for the handle.
-/
def parse_file_ptr (cons : ConstructOk) (gram : Grammar)
    (contents filename : String) : ParseResult :=
  run_parse cons gram filename contents

/--
Modelled from the spec: `parse_string(data, filename)` binds the scanner to
an in-memory buffer over `data`; `filename` is used only for diagnostics.
-/
def parse_string (cons : ConstructOk) (gram : Grammar)
    (data filename : String) : ParseResult :=
  run_parse cons gram filename data

/--
Two sequential invocations of `parse_string` on the same arguments, the
second performed after the first has completed and released its helper.
-/
def parse_string_twice (cons : ConstructOk) (gram : Grammar)
    (data filename : String) : ParseResult × ParseResult :=
  let r₁ := parse_string cons gram data filename
  let r₂ := parse_string cons gram data filename
  (r₁, r₂)

/-! ## Helper lemmas -/

theorem posLe_refl (a : Nat × Nat) : posLe a a :=
  Or.inr ⟨rfl, Nat.le_refl _⟩

theorem posLe_trans {a b c : Nat × Nat} (hab : posLe a b) (hbc : posLe b c) :
    posLe a c := by
  unfold posLe at *
  omega

theorem expand_first (loc : SourceLocation) (l c : Nat) :
    (loc.expand_to_include l c).filename = loc.filename ∧
    (loc.expand_to_include l c).first_line = loc.first_line ∧
    (loc.expand_to_include l c).first_column = loc.first_column := by
  unfold SourceLocation.expand_to_include
  split_ifs <;> exact ⟨rfl, rfl, rfl⟩

theorem expand_last_ge (loc : SourceLocation) (l c : Nat) :
    posLe (loc.last_line, loc.last_column)
      ((loc.expand_to_include l c).last_line, (loc.expand_to_include l c).last_column) := by
  unfold SourceLocation.expand_to_include
  split_ifs with h₁ h₂
  · exact Or.inl h₁
  · exact Or.inr ⟨rfl, Nat.le_of_lt h₂.2⟩
  · exact posLe_refl _

theorem expand_includes (loc : SourceLocation) (l c : Nat) :
    posLe (l, c)
      ((loc.expand_to_include l c).last_line, (loc.expand_to_include l c).last_column) := by
  unfold SourceLocation.expand_to_include
  split_ifs with h₁ h₂
  · exact posLe_refl _
  · exact Or.inr ⟨h₂.1, Nat.le_refl _⟩
  · unfold posLe
    simp only [not_and, not_lt] at h₁ h₂
    rcases Nat.lt_or_ge l loc.last_line with h | h
    · exact Or.inl h
    · have he : l = loc.last_line := Nat.le_antisymm h₁ h
      exact Or.inr ⟨he, h₂ he⟩

theorem push_all_spec (h : ParseHelper) (es : List String) :
    (es.foldl ParseHelper.push_error h).result.errors = h.result.errors ++ es ∧
    (es.foldl ParseHelper.push_error h).result.root = h.result.root ∧
    (es.foldl ParseHelper.push_error h).filename = h.filename ∧
    (es.foldl ParseHelper.push_error h).data = h.data := by
  induction es generalizing h with
  | nil => simp
  | cons e es ih =>
    obtain ⟨ha, hb, hc, hd⟩ := ih (h.push_error e)
    refine ⟨?_, ?_, ?_, ?_⟩
    · show (List.foldl ParseHelper.push_error (h.push_error e) es).result.errors = _
      rw [ha]
      simp [ParseHelper.push_error]
    · show (List.foldl ParseHelper.push_error (h.push_error e) es).result.root = _
      rw [hb]
      rfl
    · show (List.foldl ParseHelper.push_error (h.push_error e) es).filename = _
      rw [hc]
      rfl
    · show (List.foldl ParseHelper.push_error (h.push_error e) es).data = _
      rw [hd]
      rfl

theorem run_parse_true (cons : ConstructOk) (gram : Grammar) (filename data : String)
    (hc : cons filename data = true) :
    (run_parse cons gram filename data).root = (gram filename data).1 ∧
    (run_parse cons gram filename data).errors = (gram filename data).2 := by
  obtain ⟨he, -, -, -⟩ := push_all_spec (ParseHelper.init filename data) (gram filename data).2
  unfold run_parse ParseHelper.parse
  rw [if_pos hc]
  refine ⟨rfl, ?_⟩
  show (List.foldl ParseHelper.push_error (ParseHelper.init filename data)
      (gram filename data).2).result.errors = _
  rw [he]
  simp [ParseHelper.init, ParseResult.mkDefault]

theorem run_parse_false (cons : ConstructOk) (gram : Grammar) (filename data : String)
    (hc : cons filename data = false) :
    run_parse cons gram filename data =
      { root := none, errors := ["failed to construct scanner for " ++ filename] } := by
  unfold run_parse
  rw [if_neg (by simp [hc])]
  simp [ParseHelper.push_error, ParseHelper.init, ParseResult.mkDefault]

/-! ## Claim theorems -/

/--
C1: for every `ParseResult` the parse is successful if and only if its
error list is empty; the root handle is independent of that predicate, and
a populated (partial) root may coexist with a non-empty error list.
-/
theorem success_iff_errors_empty :
    (∀ r : ParseResult, r.successful ↔ r.errors = []) ∧
    (∀ (o₁ o₂ : Option Root) (es : List String),
      (ParseResult.mk o₁ es).successful ↔ (ParseResult.mk o₂ es).successful) ∧
    (∃ r : ParseResult, r.root ≠ none ∧ r.errors ≠ []) := by
  refine ⟨fun r => Iff.rfl, fun o₁ o₂ es => Iff.rfl,
    ⟨⟨some (Root.node "error node"), ["syntax error"]⟩, ?_, ?_⟩⟩ <;> simp

/--
C2: when the named file cannot be opened, `parse_file` returns a result
with exactly one error and no root, and it does so without consulting the
scanner constructor or the grammar driver.
-/
theorem parse_file_open_failure (fs : FileSystem) (cons : ConstructOk)
    (gram : Grammar) (filename : String) (h : fs filename = none) :
    (parse_file fs cons gram filename).errors.length = 1 ∧
    (parse_file fs cons gram filename).root = none ∧
    (∀ (cons₂ : ConstructOk) (gram₂ : Grammar),
      parse_file fs cons gram filename = parse_file fs cons₂ gram₂ filename) := by
  have key : ∀ (c : ConstructOk) (g : Grammar),
      parse_file fs c g filename =
      ((ParseHelper.init filename "").push_error
        ("failed to open file " ++ filename)).result := by
    intro c g
    unfold parse_file
    rw [h]
  exact ⟨by rw [key cons gram]; rfl, by rw [key cons gram]; rfl,
    fun c g => by rw [key cons gram, key c g]⟩

/--
Witness for C2 at a concrete empty file system and filename.
-/
theorem parse_file_open_failure_witness :
    (parse_file (fun _ => none) (fun _ _ => true) (fun _ _ => (none, []))
      "missing.cq").errors.length = 1 ∧
    (parse_file (fun _ => none) (fun _ _ => true) (fun _ _ => (none, []))
      "missing.cq").root = none :=
  ⟨(parse_file_open_failure (fun _ => none) (fun _ _ => true) (fun _ _ => (none, []))
      "missing.cq" rfl).1,
   (parse_file_open_failure (fun _ => none) (fun _ _ => true) (fun _ _ => (none, []))
      "missing.cq" rfl).2.1⟩

/--
C3: the three entry points are total functions into `ParseResult`; every
expected failure mode (open failure, scanner-construction failure) shows up
as an entry in the result's error list rather than escaping the boundary,
and the grammar's reported errors are forwarded into the error list.
-/
theorem entry_points_total (fs : FileSystem) (cons : ConstructOk) (gram : Grammar)
    (filename data : String) :
    (fs filename = none → (parse_file fs cons gram filename).errors ≠ []) ∧
    (∀ d, fs filename = some d → cons filename d = false →
      (parse_file fs cons gram filename).errors ≠ []) ∧
    (cons filename data = false → (parse_string cons gram data filename).errors ≠ []) ∧
    (cons filename data = false → (parse_file_ptr cons gram data filename).errors ≠ []) ∧
    (cons filename data = true →
      (parse_string cons gram data filename).errors = (gram filename data).2) := by
  refine ⟨?_, ?_, ?_, ?_, ?_⟩
  · intro h
    rw [(parse_file_open_failure fs cons gram filename h).2.2 cons gram]
    -- any instantiation works; compute the open-failure result directly
    unfold parse_file
    rw [h]
    simp [ParseHelper.push_error, ParseHelper.init, ParseResult.mkDefault]
  · intro d hd hcons
    unfold parse_file
    rw [hd]
    show (run_parse cons gram filename d).errors ≠ []
    rw [run_parse_false cons gram filename d hcons]
    simp
  · intro hcons
    unfold parse_string
    rw [run_parse_false cons gram filename data hcons]
    simp
  · intro hcons
    unfold parse_file_ptr
    rw [run_parse_false cons gram filename data hcons]
    simp
  · intro hcons
    exact (run_parse_true cons gram filename data hcons).2

/--
Witness for C3 at concrete oracles exercising the open-failure,
construction-failure and grammar-error paths.
-/
theorem entry_points_total_witness :
    (parse_file (fun _ => none) (fun _ _ => true) (fun _ _ => (none, []))
      "a.cq").errors ≠ [] ∧
    (parse_file (fun _ => some "version 1.0") (fun _ _ => false) (fun _ _ => (none, []))
      "a.cq").errors ≠ [] ∧
    (parse_string (fun _ _ => false) (fun _ _ => (none, [])) "version 1.0"
      "b.cq").errors ≠ [] ∧
    (parse_file_ptr (fun _ _ => false) (fun _ _ => (none, [])) "version 1.0"
      "b.cq").errors ≠ [] ∧
    (parse_string (fun _ _ => true) (fun _ _ => (none, ["syntax error"])) "version ;"
      "b.cq").errors = ["syntax error"] :=
  ⟨(entry_points_total (fun _ => none) (fun _ _ => true) (fun _ _ => (none, []))
      "a.cq" "").1 rfl,
   (entry_points_total (fun _ => some "version 1.0") (fun _ _ => false)
      (fun _ _ => (none, [])) "a.cq" "").2.1 "version 1.0" rfl rfl,
   (entry_points_total (fun _ => none) (fun _ _ => false) (fun _ _ => (none, []))
      "b.cq" "version 1.0").2.2.1 rfl,
   (entry_points_total (fun _ => none) (fun _ _ => false) (fun _ _ => (none, []))
      "b.cq" "version 1.0").2.2.2.1 rfl,
   (entry_points_total (fun _ => none) (fun _ _ => true)
      (fun _ _ => (none, ["syntax error"])) "b.cq" "version ;").2.2.2.2 rfl⟩

/--
C4 counterexample: `expand_to_include` never moves the first endpoint, so a
position strictly before the first endpoint is not enclosed afterwards —
expanding the point location (5,5) by position (1,1) leaves (1,1) outside
the range, refuting "the resulting range encloses every position passed in".
-/
theorem expand_before_first_not_enclosed :
    ¬ (((SourceLocation.make "t.cq" 5 5 0 0).expand_to_include 1 1).encloses (1, 1)) := by
  decide

/--
C4 (amended): after any finite sequence of `expand_to_include` calls, the
filename and the first endpoint are unchanged, the last endpoint has not
moved backwards (the range never shrinks), and every position passed in
lies at or before the final last endpoint — hence every passed-in position
at or after the first endpoint is enclosed.  Positions strictly before the
first endpoint are not covered (see the counterexample).
-/
theorem expand_all_monotonic (loc : SourceLocation) (ps : List (Nat × Nat)) :
    (loc.expand_all ps).filename = loc.filename ∧
    (loc.expand_all ps).first_line = loc.first_line ∧
    (loc.expand_all ps).first_column = loc.first_column ∧
    posLe (loc.last_line, loc.last_column)
      ((loc.expand_all ps).last_line, (loc.expand_all ps).last_column) ∧
    ∀ p ∈ ps, posLe p ((loc.expand_all ps).last_line, (loc.expand_all ps).last_column) := by
  induction ps generalizing loc with
  | nil => exact ⟨rfl, rfl, rfl, posLe_refl _, by simp⟩
  | cons p ps ih =>
    obtain ⟨hf, h₁, h₂, hlast, hmem⟩ := ih (loc.expand_to_include p.1 p.2)
    obtain ⟨ef, e₁, e₂⟩ := expand_first loc p.1 p.2
    refine ⟨hf.trans ef, h₁.trans e₁, h₂.trans e₂,
      posLe_trans (expand_last_ge loc p.1 p.2) hlast, ?_⟩
    intro q hq
    rcases List.mem_cons.mp hq with h | h
    · subst h
      exact posLe_trans (expand_includes loc q.1 q.2) hlast
    · exact hmem q h

/--
Witness for C4 (amended) at a concrete location and position sequence.
-/
theorem expand_all_monotonic_witness :
    ((SourceLocation.make "t.cq" 1 1 0 0).expand_all [(1, 7), (3, 2)]).first_line = 1 ∧
    posLe (3, 2)
      ((((SourceLocation.make "t.cq" 1 1 0 0).expand_all [(1, 7), (3, 2)])).last_line,
       (((SourceLocation.make "t.cq" 1 1 0 0).expand_all [(1, 7), (3, 2)])).last_column) := by
  obtain ⟨-, h₁, -, -, hmem⟩ :=
    expand_all_monotonic (SourceLocation.make "t.cq" 1 1 0 0) [(1, 7), (3, 2)]
  exact ⟨by rw [h₁]; rfl, hmem (3, 2) (by simp)⟩

/--
C5: constructing a `SourceLocation` with a filename and only a start point
(last line and column left at their default 0) collapses the last endpoint
onto the first endpoint.
-/
theorem make_collapses_end (fn : String) (fl fc : Nat) :
    (SourceLocation.make fn fl fc 0 0).last_line = fl ∧
    (SourceLocation.make fn fl fc 0 0).last_column = fc := by
  simp only [SourceLocation.make]
  constructor <;> split_ifs <;> omega

/--
C6: for locations with both endpoints known (all coordinates non-zero) the
range is non-decreasing — last line beyond first line, or equal lines with
last column at least first column; the constructor establishes this and
`expand_to_include` preserves it.
-/
theorem ordered_established_and_preserved :
    (∀ (fn : String) (fl fc ll lc : Nat),
      (SourceLocation.make fn fl fc ll lc).known →
      (SourceLocation.make fn fl fc ll lc).ordered) ∧
    (∀ (loc : SourceLocation) (l c : Nat),
      loc.known → loc.ordered → (loc.expand_to_include l c).ordered) := by
  constructor
  · intro fn fl fc ll lc _
    simp only [SourceLocation.make, SourceLocation.ordered]
    split_ifs <;> omega
  · intro loc l c _ ho
    unfold SourceLocation.ordered at ho
    unfold SourceLocation.expand_to_include
    split_ifs with h₁ h₂
    · unfold SourceLocation.ordered
      simp only
      omega
    · unfold SourceLocation.ordered
      simp only
      omega
    · exact ho

/--
Witness for C6 at a concrete known, ordered location.
-/
theorem ordered_established_and_preserved_witness :
    (SourceLocation.make "t.cq" 1 2 3 4).ordered ∧
    ((SourceLocation.make "t.cq" 1 2 3 4).expand_to_include 3 9).ordered :=
  ⟨ordered_established_and_preserved.1 "t.cq" 1 2 3 4 (by decide),
   ordered_established_and_preserved.2 (SourceLocation.make "t.cq" 1 2 3 4) 3 9
     (by decide)
     (ordered_established_and_preserved.1 "t.cq" 1 2 3 4 (by decide))⟩

/--
C7: `expand_to_include` is a no-op on a position already enclosed in the
range — the whole location, all five fields included, is unchanged.
-/
theorem expand_noop_when_enclosed (loc : SourceLocation) (l c : Nat)
    (h : loc.encloses (l, c)) :
    loc.expand_to_include l c = loc := by
  obtain ⟨-, h₂⟩ := h
  unfold posLe at h₂
  simp only at h₂
  unfold SourceLocation.expand_to_include
  split_ifs with hA hB
  · exfalso; omega
  · exfalso; omega
  · rfl

/--
Witness for C7: position (2,2) inside the concrete range (1,1)-(3,3).
-/
theorem expand_noop_when_enclosed_witness :
    (SourceLocation.make "t.cq" 1 1 3 3).expand_to_include 2 2 =
      SourceLocation.make "t.cq" 1 1 3 3 :=
  expand_noop_when_enclosed (SourceLocation.make "t.cq" 1 1 3 3) 2 2 (by decide)

/--
C8: two sequential `parse_string` invocations on the same data and
filename, under the same external oracles, produce results with equal
roots and equal error lists; no state is retained between the calls.
-/
theorem parse_string_deterministic (cons : ConstructOk) (gram : Grammar)
    (data filename : String) :
    (parse_string_twice cons gram data filename).1.root =
      (parse_string_twice cons gram data filename).2.root ∧
    (parse_string_twice cons gram data filename).1.errors =
      (parse_string_twice cons gram data filename).2.errors :=
  ⟨rfl, rfl⟩

/--
C9 counterexample: `expand_line` (the column-defaulted call) can leave the
last column at the unknown sentinel 0 — on the location with last endpoint
(5,0), expanding by line 3 is a no-op and the last column stays 0, refuting
"the last endpoint's column after such a call is never 0".
-/
theorem expand_line_can_keep_unknown_column :
    ((SourceLocation.make "t.cq" 0 0 5 0).expand_line 3).last_column = 0 := by
  decide

/--
C9 (amended): calling `expand_to_include` with only a line argument behaves
exactly as calling it with column 1; consequently such a call either
leaves the location entirely unchanged or sets the last column to 1 —
it never writes the unknown sentinel 0 into the last column.
-/
theorem expand_line_defaults_column_one (loc : SourceLocation) (line : Nat) :
    loc.expand_line line = loc.expand_to_include line 1 ∧
    (loc.expand_line line = loc ∨ (loc.expand_line line).last_column = 1) := by
  refine ⟨rfl, ?_⟩
  unfold SourceLocation.expand_line SourceLocation.expand_to_include
  split_ifs with h₁ h₂
  · right; rfl
  · right; rfl
  · left; rfl

/--
C10: a default-constructed `ParseResult` has an empty error list and an
absent root, hence counts as successful under the `errors.empty()`
criterion; the type itself therefore never guarantees that an empty error
list implies a present root.
-/
theorem default_result_successful_without_root :
    ParseResult.mkDefault.errors = [] ∧
    ParseResult.mkDefault.root = none ∧
    ParseResult.mkDefault.successful ∧
    (∃ r : ParseResult, r.successful ∧ r.root = none) :=
  ⟨rfl, rfl, rfl, ⟨ParseResult.mkDefault, rfl, rfl⟩⟩

end cqasm
